import Mathlib

/-!
Verification of the OpenClaw wrapper's gateway process supervisor, reverse
proxy and command runner, shallowly embedded from the TypeScript sources
(`src/config.ts` gateway-supervisor module, `src/server.ts` proxy module,
`src/gateway.ts`, `src/utils.ts`).

Timestamps are modelled as natural numbers of milliseconds (`Date.now()`),
passed explicitly to each operation.  The supervisor's module-level mutable
`state` object becomes an explicit `GatewayState` value threaded through the
operations.  Awaited results of the environment (readiness polling, process
exits) become explicit parameters.
-/

namespace OpenClaw

/-! ## Supervisor constants (config.ts, circuit breaker configuration) -/

def CRASH_WINDOW_MS : Nat := 60000
def MAX_CRASHES_IN_WINDOW : Nat := 5
def CIRCUIT_RESET_MS : Nat := 120000
def MAX_CONSECUTIVE_FAILS : Nat := 3

/-! ## Supervisor state

Mirrors the module-level `state: GatewayState` object.  The `proc` field
(`ChildProcess | null`) is modelled as `Option Unit` (only presence matters to
the control flow); the `starting` in-flight promise is modelled separately in
the concurrent system model (`Sys`), while the sequential operations below
describe a call made when no start is in flight.  `healthCheckTimer` records
whether the periodic health monitor is installed.
-/

structure GatewayState where
  proc : Option Unit
  crashHistory : List Nat
  consecutiveFails : Nat
  circuitOpen : Bool
  circuitOpenedAt : Option Nat
  lastHealthCheck : Option Nat
  healthCheckTimer : Bool
deriving DecidableEq

/-- The module-level initial state (config.ts `const state = {...}`). -/
def initialState : GatewayState :=
  { proc := none
    crashHistory := []
    consecutiveFails := 0
    circuitOpen := false
    circuitOpenedAt := none
    lastHealthCheck := none
    healthCheckTimer := false }

/-- `recordCrash()` (config.ts): push the current time onto `crashHistory`,
prune entries outside the 60s window, and open the circuit once the pruned
history reaches `MAX_CRASHES_IN_WINDOW`.  JS computes `now - t < window` on
possibly-negative differences in the same way truncated `Nat` subtraction
does here (both keep every entry `t ≥ now`). -/
def recordCrash (now : Nat) (s : GatewayState) : GatewayState :=
  let hist := (s.crashHistory ++ [now]).filter (fun t => decide (now - t < CRASH_WINDOW_MS))
  if MAX_CRASHES_IN_WINDOW ≤ hist.length then
    { s with crashHistory := hist, circuitOpen := true, circuitOpenedAt := some now }
  else
    { s with crashHistory := hist }

/-- Result of `checkCircuitBreaker()`: the (possibly half-open-cleared) state,
the `allowed` flag and the optional refusal reason. -/
structure CircuitCheck where
  state : GatewayState
  allowed : Bool
  reason : Option String
deriving DecidableEq

/-- The refusal reason built by `checkCircuitBreaker()`. -/
def circuitOpenReason (remaining : Nat) : String :=
  "Circuit breaker open due to repeated failures. Retry in " ++ toString remaining ++ "s"

/-- `checkCircuitBreaker()` (config.ts): closed circuit allows a start; an
open circuit whose cooldown elapsed is cleared (half-open) and allows; an open
circuit within the cooldown refuses, naming the remaining whole seconds
(`Math.ceil` of the remaining milliseconds over 1000). -/
def checkCircuitBreaker (now : Nat) (s : GatewayState) : CircuitCheck :=
  if s.circuitOpen = false then
    ⟨s, true, none⟩
  else
    let elapsed := now - (s.circuitOpenedAt.getD 0)
    if CIRCUIT_RESET_MS ≤ elapsed then
      ⟨{ s with circuitOpen := false, circuitOpenedAt := none,
                  crashHistory := [], consecutiveFails := 0 }, true, none⟩
    else
      let remaining := (CIRCUIT_RESET_MS - elapsed + 999) / 1000
      ⟨s, false, some (circuitOpenReason remaining)⟩

/-- The `exit` handler installed by `startGateway()` (config.ts): stop the
health monitor; when the termination signal is not SIGTERM/SIGINT, count a
crash if the exit code is non-zero or the runtime was below 10s, otherwise
reset `consecutiveFails`; finally clear the process slot.  `runtime` is
`Date.now() - startTime` and `now` the crash-recording clock reading. -/
def gatewayExitHandler (code : Option Int) (signal : Option String)
    (runtime now : Nat) (s : GatewayState) : GatewayState :=
  let s1 := { s with healthCheckTimer := false }
  let s2 :=
    if signal ≠ some "SIGTERM" ∧ signal ≠ some "SIGINT" then
      if code ≠ some 0 ∨ runtime < 10000 then
        recordCrash now { s1 with consecutiveFails := s1.consecutiveFails + 1 }
      else
        { s1 with consecutiveFails := 0 }
    else s1
  { s2 with proc := none }

/-- `startGateway()` (config.ts), up to and including the spawn: returns the
thrown message on failure, otherwise the new state together with whether a
spawn occurred.  The backoff sleep does not change supervisor state and is
elided (the clock is a parameter).  Spawning fills the process slot and
`startHealthMonitor()` installs the health timer. -/
def startGateway (configured : Bool) (now : Nat) (s : GatewayState) :
    Except String (GatewayState × Bool) :=
  if s.proc.isSome then .ok (s, false)
  else if configured = false then .error "Gateway cannot start: not configured"
  else
    let c := checkCircuitBreaker now s
    if c.allowed then
      .ok ({ c.state with proc := some (), healthCheckTimer := true }, true)
    else
      .error (c.reason.getD "")

/-- The `GatewayResult` shape `{ ok, reason? }`. -/
structure GatewayResult where
  ok : Bool
  reason : Option String
deriving DecidableEq

/-- Outcome of a sequential `ensureGatewayRunning()` call: the final state,
the returned result, and whether a child process was spawned during the call. -/
structure EnsureOutcome where
  state : GatewayState
  result : GatewayResult
  spawned : Bool
deriving DecidableEq

/-- The refusal reason built for too many consecutive startup failures. -/
def tooManyFailsReason (n : Nat) : String :=
  "Too many consecutive startup failures (" ++ toString n ++ "). Use gateway.restart to force retry."

/-- `String(new Error("Gateway did not become ready in time"))`. -/
def notReadyReason : String := "Error: Gateway did not become ready in time"

/-- `ensureGatewayRunning()` (config.ts), sequential semantics (no start in
flight when the call begins; the awaits of the single start operation are
collapsed).  `configured` is `isConfigured()`, `ready` the outcome of
`waitForGatewayReady`.  Mirrors: not-configured check, running check, circuit
check, consecutive-failure check, then the start closure (spawn via
`startGateway`, readiness polling, crash recording / counter reset). -/
def ensureGatewayRunning (configured ready : Bool) (now : Nat) (s : GatewayState) :
    EnsureOutcome :=
  if configured = false then ⟨s, ⟨false, some "not configured"⟩, false⟩
  else if s.proc.isSome then ⟨s, ⟨true, none⟩, false⟩
  else
    let c := checkCircuitBreaker now s
    if c.allowed = false then ⟨c.state, ⟨false, c.reason⟩, false⟩
    else if MAX_CONSECUTIVE_FAILS ≤ c.state.consecutiveFails then
      ⟨c.state, ⟨false, some (tooManyFailsReason c.state.consecutiveFails)⟩, false⟩
    else
      match startGateway configured now c.state with
      | .error e => ⟨c.state, ⟨false, some ("Error: " ++ e)⟩, false⟩
      | .ok (s2, spawned) =>
        if ready then
          ⟨{ s2 with consecutiveFails := 0, lastHealthCheck := some now }, ⟨true, none⟩, spawned⟩
        else
          ⟨recordCrash now { s2 with consecutiveFails := s2.consecutiveFails + 1 },
            ⟨false, some notReadyReason⟩, spawned⟩

/-- `restartGateway()` (config.ts): clear circuit state, fail counter and
crash history; if a process is running, stop the health monitor, send SIGTERM
and clear the slot; then call `ensureGatewayRunning()`. -/
def restartGateway (configured ready : Bool) (now : Nat) (s : GatewayState) :
    EnsureOutcome :=
  let s1 := { s with circuitOpen := false, circuitOpenedAt := none,
                      consecutiveFails := 0, crashHistory := [] }
  let s2 := if s1.proc.isSome then { s1 with healthCheckTimer := false, proc := none } else s1
  ensureGatewayRunning configured ready now s2

/-- `resetCircuitBreaker()` (config.ts). -/
def resetCircuitBreaker (s : GatewayState) : GatewayState :=
  { s with circuitOpen := false, circuitOpenedAt := none,
            consecutiveFails := 0, crashHistory := [] }

/-! ## Command runner (`runCmd`, config.ts)

`runCmd` resolves (never rejects) with `{ code, output }`.  The environment's
behaviour is described by: the output chunks interleaved before and after the
moment the timeout timer would fire, whether the timer actually fired
(`timedOut`, only possible when `timeoutMs > 0` was given), and how the child
terminated (an `error` event for a failed spawn, or a `close` event carrying
the exit code and signal). -/

inductive ProcTermination where
  | spawnError (err : String)
  | closed (code : Option Int) (signal : Option String)
deriving DecidableEq

structure CommandResult where
  code : Int
  output : String
deriving DecidableEq

/-- The synthetic marker appended to the captured output when the timeout
timer kills the process. -/
def timeoutMarker (timeoutMs : Nat) : String :=
  "\n[timeout] Command killed after " ++ toString timeoutMs ++ "ms\n"

/-- `runCmd` (config.ts): combined output accumulation, the timeout kill
(sets `killed` and appends the marker between the chunks produced before and
after it), and the resolution mapping — 127 on a spawn `error` event, 124 when
`killed`, otherwise `code ?? (signal ? 1 : 0)`. -/
def runCmd (timeoutMs : Nat) (timedOut : Bool) (preOut postOut : String)
    (term : ProcTermination) : CommandResult :=
  let out := if timedOut then preOut ++ timeoutMarker timeoutMs ++ postOut
             else preOut ++ postOut
  match term with
  | .spawnError err => ⟨127, out ++ "\n[spawn error] " ++ err ++ "\n"⟩
  | .closed code signal =>
    let exitCode : Int := if timedOut then 124 else code.getD (if signal.isSome then 1 else 0)
    ⟨exitCode, out⟩

/-! ## Header model (server.ts / utils.ts)

A fetch `Headers` object is modelled as an association list whose names are
lowercase (the `Headers` constructor normalises names; `set` replaces,
`delete` removes, `get`/`has` find the entry).  A plain JS object of headers
(the WebSocket path) is modelled the same way, with in-place update. -/

abbrev HeaderList := List (String × String)

/-- `headers.delete(name)`. -/
def hDelete (h : HeaderList) (name : String) : HeaderList :=
  h.filter (fun p => p.1 != name)

/-- `headers.set(name, value)`. -/
def hSet (h : HeaderList) (name value : String) : HeaderList :=
  hDelete h name ++ [(name, value)]

/-- `headers.get(name)` (null for a missing header becomes `none`). -/
def hGet (h : HeaderList) (name : String) : Option String :=
  (h.find? (fun p => p.1 == name)).map (fun p => p.2)

/-- `headers.has(name)`. -/
def hHas (h : HeaderList) (name : String) : Bool :=
  (hGet h name).isSome

/-- ASCII lowercasing of a header name (JS `toLowerCase()` on header names;
same value as `String.toLower`, but structurally recursive so concrete
instances evaluate). -/
def lowerName (s : String) : String :=
  String.mk (s.data.map Char.toLower)

/-- `new Headers(req.headers)`: names are normalised to lowercase. -/
def headersOf (raw : List (String × String)) : HeaderList :=
  raw.map (fun p => (lowerName p.1, p.2))

/-- JS string truthiness (`undefined`/`null`/`""` are falsy). -/
def jsTruthy : Option String → Bool
  | none => false
  | some v => v != ""

/-- JS `a || b` on nullable strings. -/
def jsOrS (a b : Option String) : Option String :=
  if jsTruthy a then a else b

theorem hGet_nil (m : String) : hGet [] m = none := rfl

theorem hGet_cons (a : String × String) (t : HeaderList) (m : String) :
    hGet (a :: t) m = if a.1 = m then some a.2 else hGet t m := by
  by_cases h : a.1 = m <;> simp [hGet, List.find?_cons, h]

theorem hGet_hDelete (h : HeaderList) (n m : String) :
    hGet (hDelete h n) m = if m = n then none else hGet h m := by
  induction h with
  | nil => simp [hDelete, hGet]
  | cons a t ih =>
    by_cases han : a.1 = n <;> by_cases ham : a.1 = m <;>
      by_cases hmn : m = n <;>
        simp_all [hDelete, List.filter_cons, hGet_cons]

theorem hGet_append (l1 l2 : HeaderList) (m : String) :
    hGet (l1 ++ l2) m = (hGet l1 m).or (hGet l2 m) := by
  induction l1 with
  | nil => simp [hGet]
  | cons a t ih =>
    by_cases ham : a.1 = m <;> simp [hGet_cons, ham, ih]

theorem hGet_hSet (h : HeaderList) (n v m : String) :
    hGet (hSet h n v) m = if m = n then some v else hGet h m := by
  unfold hSet
  rw [hGet_append, hGet_hDelete]
  by_cases hmn : m = n
  · simp [hmn, hGet_cons]
  · have hnm : n ≠ m := fun he => hmn he.symm
    simp [hmn, hnm, hGet_cons, hGet_nil]

theorem hHas_hSet (h : HeaderList) (n v m : String) :
    hHas (hSet h n v) m = if m = n then true else hHas h m := by
  unfold hHas
  rw [hGet_hSet]
  by_cases hmn : m = n <;> simp [hmn]

theorem hHas_hDelete (h : HeaderList) (n m : String) :
    hHas (hDelete h n) m = if m = n then false else hHas h m := by
  unfold hHas
  rw [hGet_hDelete]
  by_cases hmn : m = n <;> simp [hmn]

theorem hGet_foldl_hDelete (ns : List String) (h : HeaderList) (m : String)
    (hm : m ∉ ns) :
    hGet (ns.foldl hDelete h) m = hGet h m := by
  induction ns generalizing h with
  | nil => rfl
  | cons a t ih =>
    have hma : m ≠ a := fun he => hm (he ▸ List.mem_cons_self a t)
    have hmt : m ∉ t := fun he => hm (List.mem_cons_of_mem a he)
    rw [List.foldl_cons, ih _ hmt, hGet_hDelete, if_neg hma]

/-! ## `buildProxyHeaders` and `proxyToGateway` (server.ts)

`buildProxyHeaders` is embedded block by block, in source order; each block
becomes a step function taking the values the source block reads. -/

/-- The parts of `new URL(req.url)` the proxy reads. -/
structure UrlParts where
  protocol : String
  host : String
  port : String
deriving DecidableEq

/-- `HOP_BY_HOP_HEADERS` (server.ts). -/
def hopByHopHeaders : List String :=
  ["connection", "keep-alive", "proxy-authenticate", "proxy-authorization",
   "te", "trailers", "transfer-encoding", "upgrade"]

/-- `WS_STRIP_HEADERS` (server.ts). -/
def wsStripHeaders : List String :=
  ["connection", "upgrade", "sec-websocket-key", "sec-websocket-extensions",
   "sec-websocket-version", "sec-websocket-accept", "content-length", "host"]

/-- The `X-Forwarded-For` block of `buildProxyHeaders`: append the caller's
IP unless it is falsy/"unknown", starting the header when absent (or falsy)
and de-duplicating against the existing comma-separated entries. -/
def xffStep (remoteIp existingForwardedFor : Option String)
    (headers : HeaderList) : HeaderList :=
  match remoteIp with
  | none => headers
  | some ip =>
    if ip ≠ "" ∧ ip ≠ "unknown" then
      if jsTruthy existingForwardedFor = false then
        hSet headers "x-forwarded-for" ip
      else
        let e := existingForwardedFor.getD ""
        if ((e.splitOn ",").map (fun part => part.trim)).contains ip = false then
          hSet headers "x-forwarded-for" (e ++ ", " ++ ip)
        else headers
    else headers

/-- The `X-Real-Ip` block: the first existing forwarded entry (trimmed), or
the peer address, skipped when falsy/"unknown". -/
def realIpStep (remoteIp existingForwardedFor : Option String)
    (headers : HeaderList) : HeaderList :=
  let realIp : Option String :=
    match existingForwardedFor with
    | some e =>
      let c := ((e.splitOn ",").headD "").trim
      if c = "" then remoteIp else some c
    | none => remoteIp
  match realIp with
  | some r => if r ≠ "" ∧ r ≠ "unknown" then hSet headers "x-real-ip" r else headers
  | none => headers

/-- The `X-Forwarded-Proto` block; also yields the `proto` value reused by
the port block (`headers.get(..) ?? url.protocol.replace(":", "")` — a URL
protocol carries exactly one colon, so replacing every occurrence agrees with
the JS first-occurrence replace). -/
def protoStep (url : UrlParts) (headers : HeaderList) : HeaderList × String :=
  let proto := (hGet headers "x-forwarded-proto").getD (url.protocol.replace ":" "")
  if hHas headers "x-forwarded-proto" = false ∧ proto ≠ "" then
    (hSet headers "x-forwarded-proto" proto, proto)
  else (headers, proto)

/-- The `X-Forwarded-Host` block
(`headers.get(xfh) || headers.get("host") || url.host`). -/
def hostStep (url : UrlParts) (headers : HeaderList) : HeaderList :=
  let host := jsOrS (hGet headers "x-forwarded-host")
    (jsOrS (hGet headers "host") (some url.host))
  if hHas headers "x-forwarded-host" = false ∧ jsTruthy host then
    hSet headers "x-forwarded-host" (host.getD "")
  else headers

/-- The `X-Forwarded-Port` block
(`url.port || (proto === "https" ? "443" : "80")`). -/
def portStep (proto : String) (url : UrlParts) (headers : HeaderList) : HeaderList :=
  if hHas headers "x-forwarded-port" = false then
    let port := if url.port ≠ "" then url.port else (if proto = "https" then "443" else "80")
    hSet headers "x-forwarded-port" port
  else headers

/-- `buildProxyHeaders(req, server)` (server.ts): copy the request headers,
delete hop-by-hop headers, then run the forwarding blocks and tag the
request with the `x-forwarded-by` marker. -/
def buildProxyHeaders (reqHeaders : List (String × String)) (url : UrlParts)
    (remoteIp : Option String) : HeaderList :=
  let headers := headersOf reqHeaders
  let headers := hopByHopHeaders.foldl hDelete headers
  let existingForwardedFor := hGet headers "x-forwarded-for"
  let headers := xffStep remoteIp existingForwardedFor headers
  let headers := realIpStep remoteIp existingForwardedFor headers
  let hp := protoStep url headers
  let headers := hostStep url hp.1
  let headers := portStep hp.2 url headers
  hSet headers "x-forwarded-by" "openclaw-wrapper"

/-- The outbound header set built by `proxyToGateway` (server.ts): inject the
gateway bearer token when no `Authorization` header is present, rewrite
`Origin` to the gateway target when present, strip the
`x-forwarded-for`/`-proto`/`-host` trust headers, and drop `Content-Length`
for bodiless methods. -/
def proxyOutboundHeaders (reqHeaders : List (String × String)) (url : UrlParts)
    (remoteIp : Option String) (method token gatewayTarget : String) : HeaderList :=
  let headers := buildProxyHeaders reqHeaders url remoteIp
  let headers := if hHas headers "authorization" = false then
      hSet headers "authorization" ("Bearer " ++ token)
    else headers
  let headers := if hHas headers "origin" then hSet headers "origin" gatewayTarget else headers
  let headers := hDelete headers "x-forwarded-for"
  let headers := hDelete headers "x-forwarded-proto"
  let headers := hDelete headers "x-forwarded-host"
  let hasBody := method ≠ "GET" ∧ method ≠ "HEAD"
  if ¬ hasBody then hDelete headers "content-length" else headers

/-- `parseCommaSeparated` (utils.ts). -/
def parseCommaSeparated (value : Option String) : List String :=
  if jsTruthy value = false then []
  else (((value.getD "").splitOn ",").map (fun entry => entry.trim)).filter
    (fun s => s != "")

/-- `obj[key]` on a plain JS headers object (keys here are produced by
`Object.fromEntries(headers)`, hence lowercase). -/
def recGet (h : List (String × String)) (key : String) : Option String :=
  (h.find? (fun p => p.1 == key)).map (fun p => p.2)

/-- `obj[key] = value`: replace in place, or append a new key. -/
def recSet (h : List (String × String)) (key value : String) :
    List (String × String) :=
  if h.any (fun p => p.1 == key) then
    h.map (fun p => if p.1 == key then (p.1, value) else p)
  else h ++ [(key, value)]

/-- `delete obj[key]`. -/
def recDelete (h : List (String × String)) (key : String) :
    List (String × String) :=
  h.filter (fun p => p.1 != key)

/-- `buildWsClientOptions(rawHeaders)` (server.ts): extract the subprotocol
list and copy every header whose lowercase name is neither handshake-specific
nor `sec-websocket-protocol`. -/
def buildWsClientOptions (rawHeaders : List (String × String)) :
    (List (String × String)) × List String :=
  let protocols := parseCommaSeparated (recGet rawHeaders "sec-websocket-protocol")
  let headers := rawHeaders.filter (fun p =>
    !(wsStripHeaders.contains (lowerName p.1)) && lowerName p.1 != "sec-websocket-protocol")
  (headers, protocols)

/-- The outbound WebSocket handshake headers built in `websocket.open`
(server.ts): token injection when `headers["authorization"]` is falsy, origin
rewrite when truthy, and the `x-forwarded-*` strip. -/
def wsOutboundHeaders (rawHeaders : List (String × String))
    (token gatewayTarget : String) : List (String × String) :=
  let headers := (buildWsClientOptions rawHeaders).1
  let headers := if jsTruthy (recGet headers "authorization") = false then
      recSet headers "authorization" ("Bearer " ++ token)
    else headers
  let headers := if jsTruthy (recGet headers "origin") then
      recSet headers "origin" gatewayTarget
    else headers
  let headers := recDelete headers "x-forwarded-for"
  let headers := recDelete headers "x-forwarded-proto"
  recDelete headers "x-forwarded-host"

/-! ### Header-flow lemmas -/

theorem xffStep_hGet (ri e : Option String) (h : HeaderList) (m : String)
    (hm : m ≠ "x-forwarded-for") :
    hGet (xffStep ri e h) m = hGet h m := by
  simp only [xffStep]
  cases ri with
  | none => rfl
  | some ip =>
    repeat' split
    all_goals first
      | rfl
      | rw [hGet_hSet, if_neg hm]

theorem realIpStep_hGet (ri e : Option String) (h : HeaderList) (m : String)
    (hm : m ≠ "x-real-ip") :
    hGet (realIpStep ri e h) m = hGet h m := by
  simp only [realIpStep]
  repeat' split
  all_goals first
    | rfl
    | rw [hGet_hSet, if_neg hm]

theorem protoStep_hGet (url : UrlParts) (h : HeaderList) (m : String)
    (hm : m ≠ "x-forwarded-proto") :
    hGet (protoStep url h).1 m = hGet h m := by
  simp only [protoStep]
  split <;> simp [hGet_hSet, hm]

theorem hostStep_hGet (url : UrlParts) (h : HeaderList) (m : String)
    (hm : m ≠ "x-forwarded-host") :
    hGet (hostStep url h) m = hGet h m := by
  simp only [hostStep]
  repeat' split
  all_goals first
    | rfl
    | rw [hGet_hSet, if_neg hm]

theorem portStep_hGet (proto : String) (url : UrlParts) (h : HeaderList) (m : String)
    (hm : m ≠ "x-forwarded-port") :
    hGet (portStep proto url h) m = hGet h m := by
  simp only [portStep]
  repeat' split
  all_goals first
    | rfl
    | rw [hGet_hSet, if_neg hm]

theorem portStep_hHas_port (proto : String) (url : UrlParts) (h : HeaderList) :
    hHas (portStep proto url h) "x-forwarded-port" = true := by
  simp only [portStep]
  split
  · simp [hHas_hSet]
  · rename_i hcond
    simpa using hcond

/-- `buildProxyHeaders` never touches the `Authorization` header. -/
theorem buildProxyHeaders_hGet_auth (req : List (String × String)) (url : UrlParts)
    (ri : Option String) :
    hGet (buildProxyHeaders req url ri) "authorization" =
      hGet (headersOf req) "authorization" := by
  simp only [buildProxyHeaders]
  rw [hGet_hSet, if_neg (by decide)]
  rw [portStep_hGet _ _ _ _ (by decide)]
  rw [hostStep_hGet _ _ _ (by decide)]
  rw [protoStep_hGet _ _ _ (by decide)]
  rw [realIpStep_hGet _ _ _ _ (by decide)]
  rw [xffStep_hGet _ _ _ _ (by decide)]
  exact hGet_foldl_hDelete _ _ _ (by decide)

/-- `buildProxyHeaders` always emits `x-forwarded-port`. -/
theorem buildProxyHeaders_hHas_port (req : List (String × String)) (url : UrlParts)
    (ri : Option String) :
    hHas (buildProxyHeaders req url ri) "x-forwarded-port" = true := by
  simp only [buildProxyHeaders]
  rw [hHas_hSet, if_neg (by decide)]
  exact portStep_hHas_port _ _ _

/-- `buildProxyHeaders` always emits the `x-forwarded-by` marker. -/
theorem buildProxyHeaders_hHas_by (req : List (String × String)) (url : UrlParts)
    (ri : Option String) :
    hHas (buildProxyHeaders req url ri) "x-forwarded-by" = true := by
  simp only [buildProxyHeaders]
  rw [hHas_hSet, if_pos rfl]

theorem recGet_eq_hGet (h : List (String × String)) (k : String) :
    recGet h k = hGet h k := rfl

theorem recDelete_eq_hDelete (h : List (String × String)) (k : String) :
    recDelete h k = hDelete h k := rfl

theorem recGet_cons (a : String × String) (t : List (String × String)) (m : String) :
    recGet (a :: t) m = if a.1 = m then some a.2 else recGet t m := by
  rw [recGet_eq_hGet, recGet_eq_hGet]
  exact hGet_cons a t m

/-- A filter that keeps every pair carrying key `k` does not change the
lookup at `k`. -/
theorem recGet_filter (l : List (String × String)) (p : String × String → Bool)
    (k : String) (hp : ∀ x : String × String, x.1 = k → p x = true) :
    recGet (l.filter p) k = recGet l k := by
  induction l with
  | nil => rfl
  | cons a t ih =>
    by_cases hak : a.1 = k
    · rw [List.filter_cons, if_pos (hp a hak)]
      rw [recGet_cons, recGet_cons, if_pos hak, if_pos hak]
    · rw [List.filter_cons]
      by_cases hpa : p a = true
      · rw [if_pos hpa, recGet_cons, recGet_cons, if_neg hak, if_neg hak, ih]
      · rw [if_neg hpa, ih, recGet_cons, if_neg hak]

theorem recGet_map_update (h : List (String × String)) (k v m : String) :
    recGet (h.map (fun p => if p.1 == k then (p.1, v) else p)) m =
      if m = k then (recGet h k).map (fun _ => v) else recGet h m := by
  induction h with
  | nil => by_cases hmk : m = k <;> simp [recGet, hmk]
  | cons a t ih =>
    by_cases hak : a.1 = k <;> by_cases ham : a.1 = m <;> by_cases hmk : m = k <;>
      simp_all [recGet_cons, List.map_cons]

theorem recGet_any (h : List (String × String)) (k : String) :
    h.any (fun p => p.1 == k) = (recGet h k).isSome := by
  induction h with
  | nil => rfl
  | cons a t ih =>
    by_cases hak : a.1 = k <;> simp_all [recGet_cons, List.any_cons]

/-- `obj[key] = value` then lookup. -/
theorem recGet_recSet (h : List (String × String)) (k v m : String) :
    recGet (recSet h k v) m = if m = k then some v else recGet h m := by
  unfold recSet
  by_cases hany : h.any (fun p => p.1 == k) = true
  · rw [if_pos hany, recGet_map_update]
    by_cases hmk : m = k
    · rw [if_pos hmk, if_pos hmk]
      rw [recGet_any] at hany
      cases hg : recGet h k with
      | none => rw [hg] at hany; simp at hany
      | some w => simp [hg]
    · rw [if_neg hmk, if_neg hmk]
  · rw [if_neg hany]
    rw [recGet_any] at hany
    have hnone : recGet h k = none := by
      cases hg : recGet h k with
      | none => rfl
      | some w => rw [hg] at hany; simp at hany
    rw [recGet_eq_hGet, hGet_append]
    by_cases hmk : m = k
    · subst hmk
      rw [← recGet_eq_hGet, hnone, if_pos rfl]
      simp [hGet_cons]
    · rw [if_neg hmk, ← recGet_eq_hGet]
      have hkm : k ≠ m := fun he => hmk he.symm
      have : hGet [(k, v)] m = none := by rw [hGet_cons, if_neg hkm]; rfl
      rw [this]
      simp

/-- `buildWsClientOptions` keeps the `authorization` entry untouched. -/
theorem buildWs_auth (raw : List (String × String)) :
    recGet ((buildWsClientOptions raw).1) "authorization" =
      recGet raw "authorization" := by
  simp only [buildWsClientOptions]
  refine recGet_filter _ _ _ ?_
  intro x hx
  rw [hx]
  decide

/-- The `websocket.open` authorization handling: inject the bearer token when
the entry is absent or empty, otherwise forward the entry unchanged. -/
theorem wsOutbound_auth (raw : List (String × String)) (token target : String) :
    recGet (wsOutboundHeaders raw token target) "authorization" =
      (match recGet raw "authorization" with
       | none => some ("Bearer " ++ token)
       | some v => if v = "" then some ("Bearer " ++ token) else some v) := by
  have hb := buildWs_auth raw
  simp only [wsOutboundHeaders]
  rw [recGet_eq_hGet, recDelete_eq_hDelete, hGet_hDelete, if_neg (by decide),
    recDelete_eq_hDelete, hGet_hDelete, if_neg (by decide),
    recDelete_eq_hDelete, hGet_hDelete, if_neg (by decide), ← recGet_eq_hGet]
  have origin_pres : ∀ hs2 : List (String × String),
      recGet (if jsTruthy (recGet hs2 "origin") then recSet hs2 "origin" target else hs2)
        "authorization" = recGet hs2 "authorization" := by
    intro hs2
    split
    · rw [recGet_recSet, if_neg (by decide)]
    · rfl
  rw [origin_pres]
  cases hg : recGet ((buildWsClientOptions raw).1) "authorization" with
  | none =>
    have hraw : recGet raw "authorization" = none := hb.symm.trans hg
    rw [hraw]
    simp [jsTruthy, recGet_recSet]
  | some v =>
    have hraw : recGet raw "authorization" = some v := hb.symm.trans hg
    rw [hraw]
    by_cases hv : v = ""
    · subst hv
      simp [jsTruthy, recGet_recSet]
    · simp [jsTruthy, hv, hg]

/-- The HTTP proxy's authorization handling: inject the bearer token exactly
when the inbound request carries no `Authorization` header, otherwise forward
the inbound value unchanged. -/
theorem proxyOutbound_auth (req : List (String × String)) (url : UrlParts)
    (ri : Option String) (method token target : String) :
    hGet (proxyOutboundHeaders req url ri method token target) "authorization" =
      (match hGet (headersOf req) "authorization" with
       | none => some ("Bearer " ++ token)
       | some v => some v) := by
  have hH := buildProxyHeaders_hGet_auth req url ri
  simp only [proxyOutboundHeaders]
  cases hg : hGet (headersOf req) "authorization" with
  | none =>
    have hhas : hHas (buildProxyHeaders req url ri) "authorization" = false := by
      rw [hHas, hH, hg]
      rfl
    repeat' split
    all_goals simp_all [hGet_hDelete, hGet_hSet, hH]
  | some v =>
    have hhas : hHas (buildProxyHeaders req url ri) "authorization" = true := by
      rw [hHas, hH, hg]
      rfl
    repeat' split
    all_goals simp_all [hGet_hDelete, hGet_hSet, hH]

/-! ## Concurrent system model for `ensureGatewayRunning`

JavaScript's cooperative scheduling makes every synchronous segment atomic;
suspension happens only at `await` points.  The in-flight start operation
(`state.starting`) is the async closure in `ensureGatewayRunning`; with a
positive `consecutiveFails` its first await is the backoff sleep inside
`startGateway` (before the spawn), otherwise it spawns synchronously and
first suspends awaiting `waitForGatewayReady`. -/

/-- Progress of the single in-flight start operation. -/
inductive OpPhase where
  | backoffWait
  | awaitingReady
deriving DecidableEq

/-- The phases of one `ensureGatewayRunning()` caller. -/
inductive CallerPhase where
  | pending
  | waiting
  | finished (r : GatewayResult)
deriving DecidableEq

/-- Whole-system state: the supervisor state, the in-flight start operation
(`state.starting`, with its suspension point), a ghost spawn counter, and the
phase of each caller. -/
structure Sys where
  gw : GatewayState
  op : Option OpPhase
  spawns : Nat
  callers : List CallerPhase
deriving DecidableEq

/-- Atomic events: a caller running `ensureGatewayRunning`'s synchronous
prefix, the backoff sleep elapsing (`startGateway` resumes and spawns), and
the readiness polling completing (the closure finishes and all waiters
resume with its outcome). -/
inductive Event where
  | call (i now : Nat)
  | backoffDone
  | readyResult (ready : Bool) (now : Nat)
deriving DecidableEq

/-- The synchronous prefix of `startGateway()` as run when the start closure
is created: it re-checks the process slot, configuration and circuit breaker;
with `consecutiveFails > 0` it suspends in the backoff sleep before spawning,
otherwise it spawns immediately and the closure proceeds to await readiness. -/
def startGatewayPrefix (configured : Bool) (now : Nat) (s : GatewayState) :
    Except String (GatewayState × OpPhase × Bool) :=
  if s.proc.isSome then .ok (s, .awaitingReady, false)
  else if configured = false then .error "Gateway cannot start: not configured"
  else
    let c := checkCircuitBreaker now s
    if c.allowed = false then .error (c.reason.getD "")
    else if 0 < c.state.consecutiveFails then .ok (c.state, .backoffWait, false)
    else .ok ({ c.state with proc := some (), healthCheckTimer := true }, .awaitingReady, true)

/-- Caller `i` runs `ensureGatewayRunning`'s synchronous prefix: the
configured / already-running / circuit / consecutive-failure checks, then
either attaches to the existing in-flight start or creates it (running the
start closure up to its first await). -/
def callStep (configured : Bool) (i now : Nat) (s : Sys) : Sys :=
  match s.callers.get? i with
  | some .pending =>
    if configured = false then
      { s with callers := s.callers.set i (.finished ⟨false, some "not configured"⟩) }
    else if s.gw.proc.isSome then
      { s with callers := s.callers.set i (.finished ⟨true, none⟩) }
    else
      let c := checkCircuitBreaker now s.gw
      if c.allowed = false then
        { s with gw := c.state, callers := s.callers.set i (.finished ⟨false, c.reason⟩) }
      else if MAX_CONSECUTIVE_FAILS ≤ c.state.consecutiveFails then
        { s with gw := c.state,
                 callers := s.callers.set i
                   (.finished ⟨false, some (tooManyFailsReason c.state.consecutiveFails)⟩) }
      else
        match s.op with
        | some _ => { s with gw := c.state, callers := s.callers.set i .waiting }
        | none =>
          match startGatewayPrefix configured now c.state with
          | .error e =>
            { s with gw := c.state,
                     callers := s.callers.set i (.finished ⟨false, some ("Error: " ++ e)⟩) }
          | .ok (gw2, ph, spawnedNow) =>
            { s with gw := gw2, op := some ph,
                     spawns := s.spawns + (if spawnedNow then 1 else 0),
                     callers := s.callers.set i .waiting }
  | _ => s

/-- The backoff sleep elapses: `startGateway` resumes, spawns the child and
installs the health monitor; the closure then awaits readiness. -/
def backoffStep (s : Sys) : Sys :=
  match s.op with
  | some .backoffWait =>
    { s with gw := { s.gw with proc := some (), healthCheckTimer := true },
             op := some .awaitingReady, spawns := s.spawns + 1 }
  | _ => s

/-- Readiness polling completes: on success the closure resets
`consecutiveFails` and records the health check; on timeout it increments the
counter and records a crash; either way the `finally` clears `state.starting`
and every waiting caller resumes with the closure's outcome. -/
def readyStep (ready : Bool) (now : Nat) (s : Sys) : Sys :=
  match s.op with
  | some .awaitingReady =>
    let gw2 := if ready then { s.gw with consecutiveFails := 0, lastHealthCheck := some now }
               else recordCrash now { s.gw with consecutiveFails := s.gw.consecutiveFails + 1 }
    let r : GatewayResult := if ready then ⟨true, none⟩ else ⟨false, some notReadyReason⟩
    { s with gw := gw2, op := none,
             callers := s.callers.map (fun c =>
               match c with | .waiting => .finished r | c => c) }
  | _ => s

def stepEvent (configured : Bool) (e : Event) (s : Sys) : Sys :=
  match e with
  | .call i now => callStep configured i now s
  | .backoffDone => backoffStep s
  | .readyResult r now => readyStep r now s

def runEvents (configured : Bool) (es : List Event) (s : Sys) : Sys :=
  es.foldl (fun acc e => stepEvent configured e acc) s

/-! ## Helper lemmas (shared) -/

@[simp] theorem recordCrash_crashHistory (now : Nat) (s : GatewayState) :
    (recordCrash now s).crashHistory =
      (s.crashHistory ++ [now]).filter (fun t => decide (now - t < CRASH_WINDOW_MS)) := by
  simp only [recordCrash]
  split <;> rfl

@[simp] theorem recordCrash_consecutiveFails (now : Nat) (s : GatewayState) :
    (recordCrash now s).consecutiveFails = s.consecutiveFails := by
  simp only [recordCrash]
  split <;> rfl

@[simp] theorem recordCrash_proc (now : Nat) (s : GatewayState) :
    (recordCrash now s).proc = s.proc := by
  simp only [recordCrash]
  split <;> rfl

/-- Appending a qualifying crash extends any in-window sublist of the crash
history. -/
theorem sublist_recordCrash (l : List Nat) (now : Nat) (s : GatewayState)
    (hsub : l.Sublist s.crashHistory)
    (hall : ∀ x ∈ l, now - x < CRASH_WINDOW_MS) :
    (l ++ [now]).Sublist (recordCrash now s).crashHistory := by
  rw [recordCrash_crashHistory]
  have h1 : (l ++ [now]).Sublist (s.crashHistory ++ [now]) :=
    hsub.append (List.Sublist.refl _)
  have h2 := h1.filter (fun t => decide (now - t < CRASH_WINDOW_MS))
  have h3 : (l ++ [now]).filter (fun t => decide (now - t < CRASH_WINDOW_MS)) = l ++ [now] := by
    apply List.filter_eq_self.2
    intro a ha
    rcases List.mem_append.1 ha with h | h
    · exact decide_eq_true (hall a h)
    · simp only [List.mem_singleton] at h
      subst h
      exact decide_eq_true (by simp [CRASH_WINDOW_MS])
  rw [h3] at h2
  exact h2

/-- Once the pushed-and-pruned history reaches the threshold, `recordCrash`
opens the circuit at the current time. -/
theorem recordCrash_opens (now : Nat) (s : GatewayState)
    (h : MAX_CRASHES_IN_WINDOW ≤
      ((s.crashHistory ++ [now]).filter (fun t => decide (now - t < CRASH_WINDOW_MS))).length) :
    (recordCrash now s).circuitOpen = true ∧
    (recordCrash now s).circuitOpenedAt = some now := by
  unfold recordCrash
  simp only []
  rw [if_pos h]
  exact ⟨rfl, rfl⟩

/-- Once the pushed-and-pruned history reaches the threshold, `recordCrash`
opens the circuit at the current time (stated on the resulting history). -/
theorem recordCrash_opens_of_length (now : Nat) (s : GatewayState)
    (h : MAX_CRASHES_IN_WINDOW ≤ (recordCrash now s).crashHistory.length) :
    (recordCrash now s).circuitOpen = true ∧
    (recordCrash now s).circuitOpenedAt = some now := by
  rw [recordCrash_crashHistory] at h
  exact recordCrash_opens now s h

/-- A sequence of recorded crashes, applied oldest first
(`crashHistory.push` then prune, per crash). -/
def applyCrashes (ts : List Nat) (s : GatewayState) : GatewayState :=
  ts.foldl (fun acc t => recordCrash t acc) s

/-- `ensureGatewayRunning` while the circuit is open and the cooldown has not
elapsed: refuse with the circuit-open reason, leave the state unchanged and
spawn nothing. -/
theorem ensure_circuitOpen_refused (ready : Bool) (now t : Nat) (s : GatewayState)
    (hproc : s.proc = none) (hopen : s.circuitOpen = true)
    (hat : s.circuitOpenedAt = some t) (hcool : now - t < CIRCUIT_RESET_MS) :
    ensureGatewayRunning true ready now s =
      ⟨s, ⟨false, some (circuitOpenReason ((CIRCUIT_RESET_MS - (now - t) + 999) / 1000))⟩,
        false⟩ := by
  unfold ensureGatewayRunning checkCircuitBreaker
  simp [hproc, hopen, hat, Nat.not_le.2 hcool]

/-- `ensureGatewayRunning` while the circuit is open and the cooldown has
elapsed: the circuit clears (half-open), a spawn occurs and, with the backend
becoming ready, the call succeeds. -/
theorem ensure_circuitOpen_cleared (now t : Nat) (s : GatewayState)
    (hproc : s.proc = none) (hopen : s.circuitOpen = true)
    (hat : s.circuitOpenedAt = some t) (hcool : CIRCUIT_RESET_MS ≤ now - t) :
    ensureGatewayRunning true true now s =
      ⟨{ s with circuitOpen := false, circuitOpenedAt := none, crashHistory := [],
                 consecutiveFails := 0, proc := some (), healthCheckTimer := true,
                 lastHealthCheck := some now }, ⟨true, none⟩, true⟩ := by
  unfold ensureGatewayRunning startGateway
  simp [hproc, hopen, hat, hcool, MAX_CONSECUTIVE_FAILS, checkCircuitBreaker]

theorem runEvents_append (configured : Bool) (es1 es2 : List Event) (s : Sys) :
    runEvents configured (es1 ++ es2) s =
      runEvents configured es2 (runEvents configured es1 s) := by
  unfold runEvents
  exact List.foldl_append _ _ es1 es2

theorem get_replicate_append {α : Type} (a b : α) (l : List α) :
    ∀ k, (List.replicate k a ++ b :: l).get? k = some b := by
  intro k
  induction k with
  | zero => simp
  | succ n ih =>
    simp only [List.replicate_succ, List.cons_append, List.get?_cons_succ]
    exact ih

theorem set_replicate_append {α : Type} (a b c : α) (l : List α) :
    ∀ k, (List.replicate k a ++ b :: l).set k c = List.replicate k a ++ c :: l := by
  intro k
  induction k with
  | zero => simp
  | succ n ih =>
    simp only [List.replicate_succ, List.cons_append, List.set_cons_succ]
    rw [ih]

/-- While a start operation is suspended in its backoff sleep (possible
exactly when `consecutiveFails > 0`), every arriving caller that finds the
process slot empty attaches to that same operation: after `k` caller
arrivals the system still has made no spawn, holds one in-flight op, and the
first `k` callers all await it. -/
theorem calls_attach_single_op (N : Nat) (g : GatewayState) (ts : Nat → Nat)
    (hproc : g.proc = none) (hcirc : g.circuitOpen = false)
    (hf0 : 0 < g.consecutiveFails) (hf3 : g.consecutiveFails < MAX_CONSECUTIVE_FAILS) :
    ∀ k, k ≤ N →
      runEvents true ((List.range k).map (fun i => Event.call i (ts i)))
          ⟨g, none, 0, List.replicate N CallerPhase.pending⟩ =
        ⟨g, if k = 0 then none else some OpPhase.backoffWait, 0,
          List.replicate k CallerPhase.waiting ++
            List.replicate (N - k) CallerPhase.pending⟩ := by
  intro k
  induction k with
  | zero =>
    intro _
    simp [runEvents]
  | succ n ih =>
    intro hk
    have hn : n ≤ N := Nat.le_of_succ_le hk
    have hNn : N - n = (N - (n + 1)) + 1 := by omega
    have hstep : ∀ s : Sys, runEvents true [Event.call n (ts n)] s = callStep true n (ts n) s :=
      fun s => rfl
    rw [List.range_succ, List.map_append, runEvents_append, ih hn]
    simp only [List.map_cons, List.map_nil]
    rw [hstep]
    unfold callStep
    rw [hNn, List.replicate_succ, get_replicate_append]
    have hset := set_replicate_append CallerPhase.waiting CallerPhase.pending
      CallerPhase.waiting (List.replicate (N - (n + 1)) CallerPhase.pending) n
    rcases Nat.eq_zero_or_pos n with hn0 | hn0
    · subst hn0
      simp [checkCircuitBreaker, hcirc, hproc, Nat.not_le.2 hf3,
        startGatewayPrefix, hf0, hset, List.replicate_succ]
    · have hne : n ≠ 0 := Nat.pos_iff_ne_zero.mp hn0
      simp only [checkCircuitBreaker, hcirc, hproc, Nat.not_le.2 hf3, hne,
        hset, List.replicate_succ]
      simp [hproc, Nat.not_le.2 hf3, hne, hset]
      rw [List.append_cons, ← List.replicate_succ', List.replicate_succ, List.cons_append]

/-- `restartGateway` is exactly `ensureGatewayRunning` on the state with the
circuit fields cleared and the process slot emptied. -/
theorem restartGateway_eq (configured ready : Bool) (now : Nat) (s : GatewayState) :
    restartGateway configured ready now s =
      ensureGatewayRunning configured ready now
        { s with circuitOpen := false, circuitOpenedAt := none,
                  consecutiveFails := 0, crashHistory := [], proc := none,
                  healthCheckTimer := if s.proc.isSome then false else s.healthCheckTimer } := by
  unfold restartGateway
  cases h : s.proc <;> simp [h]

/-- An `ensureGatewayRunning` call refused by the too-many-consecutive-failures
guard returns the state unchanged and reports the failure count. -/
theorem ensure_tooManyFails (ready : Bool) (now : Nat) (s : GatewayState)
    (hproc : s.proc = none) (hcirc : s.circuitOpen = false)
    (hfail : MAX_CONSECUTIVE_FAILS ≤ s.consecutiveFails) :
    ensureGatewayRunning true ready now s =
      ⟨s, ⟨false, some (tooManyFailsReason s.consecutiveFails)⟩, false⟩ := by
  unfold ensureGatewayRunning checkCircuitBreaker
  simp [hproc, hcirc, hfail]

/-! ## Claim theorems -/

/-- C4: `restartGateway()` clears `circuitOpen`, `circuitOpenedAt`,
`consecutiveFails` and `crashHistory` regardless of prior state, terminates any
running process (emptying the slot and cancelling the health monitor), then
attempts a fresh start via `ensureGatewayRunning()` on that cleared state. -/
theorem C4_restart_clears_and_starts (configured ready : Bool) (now : Nat) (s : GatewayState) :
    restartGateway configured ready now s =
      ensureGatewayRunning configured ready now
        { s with circuitOpen := false, circuitOpenedAt := none,
                  consecutiveFails := 0, crashHistory := [], proc := none,
                  healthCheckTimer := if s.proc.isSome then false else s.healthCheckTimer } :=
  restartGateway_eq configured ready now s

/-- C9: with no backend configuration, `ensureGatewayRunning()` returns
`{ok: false, reason: "not configured"}`, spawns nothing and leaves the
supervisor state unchanged. -/
theorem C9_not_configured (ready : Bool) (now : Nat) (s : GatewayState) :
    ensureGatewayRunning false ready now s =
      ⟨s, ⟨false, some "not configured"⟩, false⟩ := by
  unfold ensureGatewayRunning
  simp

/-- C1: five qualifying crashes inside the 60s window open the circuit at the
time of the fifth crash; from then on, while the 120s cooldown has not elapsed,
every `ensureGatewayRunning()` call is refused with a reason naming the
remaining cooldown seconds (state unchanged, nothing spawned); once the
cooldown has elapsed the circuit clears and the call spawns a start again,
succeeding when the backend becomes ready. -/
theorem C1_circuit_breaker (s : GatewayState) (t1 t2 t3 t4 t5 nowR nowC : Nat) (ready : Bool)
    (h12 : t1 ≤ t2) (h23 : t2 ≤ t3) (h34 : t3 ≤ t4) (h45 : t4 ≤ t5)
    (hwin : t5 - t1 < CRASH_WINDOW_MS)
    (hproc : s.proc = none)
    (hR : nowR - t5 < CIRCUIT_RESET_MS)
    (hC : CIRCUIT_RESET_MS ≤ nowC - t5) :
    (applyCrashes [t1, t2, t3, t4, t5] s).circuitOpen = true ∧
    (applyCrashes [t1, t2, t3, t4, t5] s).circuitOpenedAt = some t5 ∧
    ensureGatewayRunning true ready nowR (applyCrashes [t1, t2, t3, t4, t5] s) =
      ⟨applyCrashes [t1, t2, t3, t4, t5] s,
        ⟨false, some (circuitOpenReason ((CIRCUIT_RESET_MS - (nowR - t5) + 999) / 1000))⟩,
        false⟩ ∧
    ensureGatewayRunning true true nowC (applyCrashes [t1, t2, t3, t4, t5] s) =
      ⟨{ applyCrashes [t1, t2, t3, t4, t5] s with
          circuitOpen := false, circuitOpenedAt := none, crashHistory := [],
          consecutiveFails := 0, proc := some (), healthCheckTimer := true,
          lastHealthCheck := some nowC }, ⟨true, none⟩, true⟩ := by
  have happ : applyCrashes [t1, t2, t3, t4, t5] s =
      recordCrash t5 (recordCrash t4 (recordCrash t3 (recordCrash t2 (recordCrash t1 s)))) := by
    simp only [applyCrashes, List.foldl]
  have hall2 : ∀ x ∈ [t1], t2 - x < CRASH_WINDOW_MS := by
    intro x hx
    simp only [List.mem_singleton] at hx
    simp only [CRASH_WINDOW_MS] at hwin ⊢
    omega
  have hall3 : ∀ x ∈ [t1, t2], t3 - x < CRASH_WINDOW_MS := by
    intro x hx
    simp only [List.mem_cons, List.mem_singleton, List.not_mem_nil, or_false] at hx
    simp only [CRASH_WINDOW_MS] at hwin ⊢
    rcases hx with rfl | rfl <;> omega
  have hall4 : ∀ x ∈ [t1, t2, t3], t4 - x < CRASH_WINDOW_MS := by
    intro x hx
    simp only [List.mem_cons, List.mem_singleton, List.not_mem_nil, or_false] at hx
    simp only [CRASH_WINDOW_MS] at hwin ⊢
    rcases hx with rfl | rfl | rfl <;> omega
  have hall5 : ∀ x ∈ [t1, t2, t3, t4], t5 - x < CRASH_WINDOW_MS := by
    intro x hx
    simp only [List.mem_cons, List.mem_singleton, List.not_mem_nil, or_false] at hx
    simp only [CRASH_WINDOW_MS] at hwin ⊢
    rcases hx with rfl | rfl | rfl | rfl <;> omega
  have m1 : [t1].Sublist (recordCrash t1 s).crashHistory := by
    have h := sublist_recordCrash [] t1 s (List.nil_sublist _)
      (fun x hx => absurd hx (List.not_mem_nil x))
    exact h
  have m2 : [t1, t2].Sublist (recordCrash t2 (recordCrash t1 s)).crashHistory :=
    sublist_recordCrash [t1] t2 _ m1 hall2
  have m3 : [t1, t2, t3].Sublist
      (recordCrash t3 (recordCrash t2 (recordCrash t1 s))).crashHistory :=
    sublist_recordCrash [t1, t2] t3 _ m2 hall3
  have m4 : [t1, t2, t3, t4].Sublist
      (recordCrash t4 (recordCrash t3 (recordCrash t2 (recordCrash t1 s)))).crashHistory :=
    sublist_recordCrash [t1, t2, t3] t4 _ m3 hall4
  have m5 : [t1, t2, t3, t4, t5].Sublist
      (recordCrash t5 (recordCrash t4 (recordCrash t3
        (recordCrash t2 (recordCrash t1 s))))).crashHistory :=
    sublist_recordCrash [t1, t2, t3, t4] t5 _ m4 hall5
  have hlen : MAX_CRASHES_IN_WINDOW ≤
      (recordCrash t5 (recordCrash t4 (recordCrash t3
        (recordCrash t2 (recordCrash t1 s))))).crashHistory.length := by
    have h := m5.length_le
    simpa [MAX_CRASHES_IN_WINDOW] using h
  obtain ⟨hopen, hat⟩ := recordCrash_opens_of_length t5 _ hlen
  have hopen' : (applyCrashes [t1, t2, t3, t4, t5] s).circuitOpen = true := by
    rw [happ]; exact hopen
  have hat' : (applyCrashes [t1, t2, t3, t4, t5] s).circuitOpenedAt = some t5 := by
    rw [happ]; exact hat
  have hproc' : (applyCrashes [t1, t2, t3, t4, t5] s).proc = none := by
    rw [happ]; simp [hproc]
  exact ⟨hopen', hat',
    ensure_circuitOpen_refused ready nowR t5 _ hproc' hopen' hat' hR,
    ensure_circuitOpen_cleared nowC t5 _ hproc' hopen' hat' hC⟩

/-- C1 witness: five crashes at t=0 open the circuit; at t=100s the call is
refused naming the remaining cooldown; at t=120s the circuit clears and the
start succeeds. -/
theorem C1_witness :
    ((applyCrashes [0, 0, 0, 0, 0] initialState).circuitOpen = true ∧
     (applyCrashes [0, 0, 0, 0, 0] initialState).circuitOpenedAt = some 0 ∧
     ensureGatewayRunning true true 100000 (applyCrashes [0, 0, 0, 0, 0] initialState) =
       ⟨applyCrashes [0, 0, 0, 0, 0] initialState,
         ⟨false, some (circuitOpenReason ((CIRCUIT_RESET_MS - (100000 - 0) + 999) / 1000))⟩,
         false⟩ ∧
     ensureGatewayRunning true true 120000 (applyCrashes [0, 0, 0, 0, 0] initialState) =
       ⟨{ applyCrashes [0, 0, 0, 0, 0] initialState with
           circuitOpen := false, circuitOpenedAt := none, crashHistory := [],
           consecutiveFails := 0, proc := some (), healthCheckTimer := true,
           lastHealthCheck := some 120000 }, ⟨true, none⟩, true⟩) :=
  C1_circuit_breaker initialState 0 0 0 0 0 100000 120000 true
    (Nat.le_refl 0) (Nat.le_refl 0) (Nat.le_refl 0) (Nat.le_refl 0)
    (by decide) rfl (by decide) (by decide)

/-- C2: N `ensureGatewayRunning()` calls arriving concurrently while no
gateway process is running (each caller's synchronous prefix observes an
empty process slot — here the in-flight start is suspended in its backoff
sleep, the situation in which concurrent arrivals can observe `proc = null` —
and the circuit permits a start): after all N arrivals every caller awaits
the same single in-flight start operation and nothing has been spawned yet;
when that operation runs to completion, exactly one spawn has occurred in
total and all N calls resolve to the same outcome. -/
theorem C2_single_flight (N : Nat) (g : GatewayState) (ts : Nat → Nat)
    (ready : Bool) (tEnd : Nat)
    (hN : 0 < N) (hproc : g.proc = none) (hcirc : g.circuitOpen = false)
    (hf0 : 0 < g.consecutiveFails) (hf3 : g.consecutiveFails < MAX_CONSECUTIVE_FAILS) :
    (runEvents true ((List.range N).map (fun i => Event.call i (ts i)))
        ⟨g, none, 0, List.replicate N CallerPhase.pending⟩).op = some OpPhase.backoffWait ∧
    (runEvents true ((List.range N).map (fun i => Event.call i (ts i)))
        ⟨g, none, 0, List.replicate N CallerPhase.pending⟩).callers =
      List.replicate N CallerPhase.waiting ∧
    (runEvents true ((List.range N).map (fun i => Event.call i (ts i)))
        ⟨g, none, 0, List.replicate N CallerPhase.pending⟩).spawns = 0 ∧
    (runEvents true (((List.range N).map (fun i => Event.call i (ts i))) ++
        [Event.backoffDone, Event.readyResult ready tEnd])
        ⟨g, none, 0, List.replicate N CallerPhase.pending⟩).spawns = 1 ∧
    (runEvents true (((List.range N).map (fun i => Event.call i (ts i))) ++
        [Event.backoffDone, Event.readyResult ready tEnd])
        ⟨g, none, 0, List.replicate N CallerPhase.pending⟩).callers =
      List.replicate N (CallerPhase.finished
        (if ready then ⟨true, none⟩ else ⟨false, some notReadyReason⟩)) := by
  have hne : N ≠ 0 := Nat.pos_iff_ne_zero.mp hN
  have hcalls : runEvents true ((List.range N).map (fun i => Event.call i (ts i)))
      ⟨g, none, 0, List.replicate N CallerPhase.pending⟩ =
      ⟨g, some OpPhase.backoffWait, 0, List.replicate N CallerPhase.waiting⟩ := by
    rw [calls_attach_single_op N g ts hproc hcirc hf0 hf3 N (le_refl N)]
    simp [hne, Nat.sub_self]
  refine ⟨by rw [hcalls], by rw [hcalls], by rw [hcalls], ?_, ?_⟩ <;>
  · rw [runEvents_append, hcalls]
    cases ready <;>
      simp [runEvents, stepEvent, backoffStep, readyStep, List.map_replicate]

/-- C2 witness: two concurrent callers during a backoff-suspended start
attach to one operation, one spawn occurs, and both resolve successfully. -/
theorem C2_witness :
    ((runEvents true ((List.range 2).map (fun i => Event.call i 0))
        ⟨{ proc := none, crashHistory := [], consecutiveFails := 1, circuitOpen := false,
            circuitOpenedAt := none, lastHealthCheck := none, healthCheckTimer := false },
          none, 0, List.replicate 2 CallerPhase.pending⟩).op = some OpPhase.backoffWait ∧
     (runEvents true ((List.range 2).map (fun i => Event.call i 0))
        ⟨{ proc := none, crashHistory := [], consecutiveFails := 1, circuitOpen := false,
            circuitOpenedAt := none, lastHealthCheck := none, healthCheckTimer := false },
          none, 0, List.replicate 2 CallerPhase.pending⟩).callers =
       List.replicate 2 CallerPhase.waiting ∧
     (runEvents true ((List.range 2).map (fun i => Event.call i 0))
        ⟨{ proc := none, crashHistory := [], consecutiveFails := 1, circuitOpen := false,
            circuitOpenedAt := none, lastHealthCheck := none, healthCheckTimer := false },
          none, 0, List.replicate 2 CallerPhase.pending⟩).spawns = 0 ∧
     (runEvents true (((List.range 2).map (fun i => Event.call i 0)) ++
        [Event.backoffDone, Event.readyResult true 5000])
        ⟨{ proc := none, crashHistory := [], consecutiveFails := 1, circuitOpen := false,
            circuitOpenedAt := none, lastHealthCheck := none, healthCheckTimer := false },
          none, 0, List.replicate 2 CallerPhase.pending⟩).spawns = 1 ∧
     (runEvents true (((List.range 2).map (fun i => Event.call i 0)) ++
        [Event.backoffDone, Event.readyResult true 5000])
        ⟨{ proc := none, crashHistory := [], consecutiveFails := 1, circuitOpen := false,
            circuitOpenedAt := none, lastHealthCheck := none, healthCheckTimer := false },
          none, 0, List.replicate 2 CallerPhase.pending⟩).callers =
       List.replicate 2 (CallerPhase.finished
         (if true then ⟨true, none⟩ else ⟨false, some notReadyReason⟩))) :=
  C2_single_flight 2
    { proc := none, crashHistory := [], consecutiveFails := 1, circuitOpen := false,
      circuitOpenedAt := none, lastHealthCheck := none, healthCheckTimer := false }
    (fun _ => 0) true 5000 (by decide) rfl rfl (by decide) (by decide)

/-- C10: when `consecutiveFails` has reached `MAX_CONSECUTIVE_FAILS` and the
circuit is closed, `ensureGatewayRunning()` refuses with the
too-many-consecutive-failures reason, spawns nothing and leaves the state
unchanged (so the refusal persists across calls); `resetCircuitBreaker()`
clears the counter, `restartGateway()` retries from a cleared counter, and a
half-open circuit check also clears it. -/
theorem C10_consecutive_fail_guard (ready : Bool) (now t now2 : Nat) (s : GatewayState)
    (hproc : s.proc = none) (hcirc : s.circuitOpen = false)
    (hfail : MAX_CONSECUTIVE_FAILS ≤ s.consecutiveFails)
    (hcool : CIRCUIT_RESET_MS ≤ now2 - t) :
    ensureGatewayRunning true ready now s =
      ⟨s, ⟨false, some (tooManyFailsReason s.consecutiveFails)⟩, false⟩ ∧
    (resetCircuitBreaker s).consecutiveFails = 0 ∧
    restartGateway true ready now s =
      ensureGatewayRunning true ready now
        { s with circuitOpen := false, circuitOpenedAt := none,
                  consecutiveFails := 0, crashHistory := [], proc := none,
                  healthCheckTimer := if s.proc.isSome then false else s.healthCheckTimer } ∧
    (checkCircuitBreaker now2
        { s with circuitOpen := true, circuitOpenedAt := some t }).state.consecutiveFails = 0 ∧
    (checkCircuitBreaker now2
        { s with circuitOpen := true, circuitOpenedAt := some t }).allowed = true := by
  refine ⟨ensure_tooManyFails ready now s hproc hcirc hfail, rfl,
    restartGateway_eq true ready now s, ?_, ?_⟩ <;>
  · unfold checkCircuitBreaker
    simp [hcool]

/-- C10 witness: a concrete state with 3 consecutive failures and a closed
circuit is refused and cleared as stated. -/
theorem C10_witness :
    (ensureGatewayRunning true true 5000
        { proc := none, crashHistory := [], consecutiveFails := 3, circuitOpen := false,
          circuitOpenedAt := none, lastHealthCheck := none, healthCheckTimer := false } =
      ⟨{ proc := none, crashHistory := [], consecutiveFails := 3, circuitOpen := false,
          circuitOpenedAt := none, lastHealthCheck := none, healthCheckTimer := false },
        ⟨false, some (tooManyFailsReason 3)⟩, false⟩ ∧
      (resetCircuitBreaker
        { proc := none, crashHistory := [], consecutiveFails := 3, circuitOpen := false,
          circuitOpenedAt := none, lastHealthCheck := none, healthCheckTimer := false }).consecutiveFails = 0 ∧
      restartGateway true true 5000
        { proc := none, crashHistory := [], consecutiveFails := 3, circuitOpen := false,
          circuitOpenedAt := none, lastHealthCheck := none, healthCheckTimer := false } =
        ensureGatewayRunning true true 5000
          { proc := none, crashHistory := [], consecutiveFails := 0, circuitOpen := false,
            circuitOpenedAt := none, lastHealthCheck := none, healthCheckTimer := false } ∧
      (checkCircuitBreaker 120000
          { proc := none, crashHistory := [], consecutiveFails := 3, circuitOpen := true,
            circuitOpenedAt := some 0, lastHealthCheck := none,
            healthCheckTimer := false }).state.consecutiveFails = 0 ∧
      (checkCircuitBreaker 120000
          { proc := none, crashHistory := [], consecutiveFails := 3, circuitOpen := true,
            circuitOpenedAt := some 0, lastHealthCheck := none,
            healthCheckTimer := false }).allowed = true) :=
  C10_consecutive_fail_guard true 5000 0 120000
    { proc := none, crashHistory := [], consecutiveFails := 3, circuitOpen := false,
      circuitOpenedAt := none, lastHealthCheck := none, healthCheckTimer := false }
    rfl rfl (by decide) (by decide)

/-- C3 counterexample: a process that ran 15s (past the 10s minimum lifetime)
and exited with code 1 and no signal is still counted as a crash by the exit
handler — `consecutiveFails` becomes 1 (not 0) and a crash is appended to the
history, contradicting the claim that such an exit resets the counter. -/
theorem C3_counterexample :
    (gatewayExitHandler (some 1) none 15000 100000 initialState).consecutiveFails = 1 ∧
    (gatewayExitHandler (some 1) none 15000 100000 initialState).crashHistory = [100000] := by
  exact ⟨rfl, rfl⟩

/-- C3 (amended): for a non-graceful exit (signal neither SIGTERM nor SIGINT)
after at least the 10s minimum lifetime, the exit resets `consecutiveFails` to
0 and records no crash only when the exit code is 0; a non-zero exit code is
treated as a crash (counter incremented, crash recorded) regardless of how
long the process ran. -/
theorem C3_long_run_exit (code : Option Int) (signal : Option String)
    (runtime now : Nat) (s : GatewayState)
    (hsig1 : signal ≠ some "SIGTERM") (hsig2 : signal ≠ some "SIGINT")
    (hrt : 10000 ≤ runtime) :
    (code = some 0 →
      gatewayExitHandler code signal runtime now s =
        { s with consecutiveFails := 0, healthCheckTimer := false, proc := none }) ∧
    (code ≠ some 0 →
      (gatewayExitHandler code signal runtime now s).consecutiveFails =
        s.consecutiveFails + 1 ∧
      (gatewayExitHandler code signal runtime now s).crashHistory =
        (s.crashHistory ++ [now]).filter (fun t => decide (now - t < CRASH_WINDOW_MS))) := by
  constructor
  · intro h0
    unfold gatewayExitHandler
    simp [hsig1, hsig2, h0, Nat.not_lt.2 hrt]
  · intro h0
    unfold gatewayExitHandler
    simp [hsig1, hsig2, h0]

/-- C3 amended-claim witness: a clean long-lived exit (code 0, 15s, no signal)
resets the counter; the same exit with code 1 counts as a crash. -/
theorem C3_witness :
    ((some (0 : Int) = some 0 →
      gatewayExitHandler (some 0) none 15000 100000 initialState =
        { initialState with consecutiveFails := 0, healthCheckTimer := false, proc := none }) ∧
     (some (0 : Int) ≠ some 0 →
      (gatewayExitHandler (some 0) none 15000 100000 initialState).consecutiveFails =
        initialState.consecutiveFails + 1 ∧
      (gatewayExitHandler (some 0) none 15000 100000 initialState).crashHistory =
        (initialState.crashHistory ++ [100000]).filter
          (fun t => decide (100000 - t < CRASH_WINDOW_MS)))) :=
  C3_long_run_exit (some 0) none 15000 100000 initialState
    (by decide) (by decide) (by decide)

/-- C5 counterexample: on a readiness timeout from a clean state the start
fails, but the partially-started process is not terminated — the process slot
still holds it afterwards (the claim says the slot is empty). -/
theorem C5_counterexample :
    (ensureGatewayRunning true false 1000 initialState).state.proc = some () ∧
    (ensureGatewayRunning true false 1000 initialState).result.ok = false := by
  exact ⟨rfl, rfl⟩

/-- C5 (amended): when readiness polling times out, the start operation fails
with the not-ready reason, `consecutiveFails` is incremented and a crash is
recorded in `crashHistory`; the partially-started process is NOT terminated —
it remains in the process slot (the slot is only cleared later by the
process's own exit/error events). -/
theorem C5_readiness_timeout (now : Nat) (s : GatewayState)
    (hproc : s.proc = none) (hcirc : s.circuitOpen = false)
    (hfail : s.consecutiveFails < MAX_CONSECUTIVE_FAILS) :
    ensureGatewayRunning true false now s =
      ⟨recordCrash now { s with proc := some (), healthCheckTimer := true,
                                 consecutiveFails := s.consecutiveFails + 1 },
        ⟨false, some notReadyReason⟩, true⟩ ∧
    (ensureGatewayRunning true false now s).state.proc = some () ∧
    (ensureGatewayRunning true false now s).state.consecutiveFails =
      s.consecutiveFails + 1 ∧
    now ∈ (ensureGatewayRunning true false now s).state.crashHistory := by
  have heq : ensureGatewayRunning true false now s =
      ⟨recordCrash now { s with proc := some (), healthCheckTimer := true,
                                 consecutiveFails := s.consecutiveFails + 1 },
        ⟨false, some notReadyReason⟩, true⟩ := by
    unfold ensureGatewayRunning startGateway
    simp [hproc, hcirc, Nat.not_le.2 hfail, checkCircuitBreaker]
  refine ⟨heq, ?_, ?_, ?_⟩ <;> rw [heq]
  · simp
  · simp
  · simp only [recordCrash_crashHistory]
    refine List.mem_filter.2 ⟨List.mem_append_right _ (List.mem_singleton.2 rfl), ?_⟩
    exact decide_eq_true (by simp [CRASH_WINDOW_MS])

/-- C5 amended-claim witness at a concrete clean state. -/
theorem C5_witness :
    (ensureGatewayRunning true false 1000 initialState =
      ⟨recordCrash 1000 { initialState with proc := some (), healthCheckTimer := true,
                                             consecutiveFails := initialState.consecutiveFails + 1 },
        ⟨false, some notReadyReason⟩, true⟩ ∧
     (ensureGatewayRunning true false 1000 initialState).state.proc = some () ∧
     (ensureGatewayRunning true false 1000 initialState).state.consecutiveFails =
       initialState.consecutiveFails + 1 ∧
     1000 ∈ (ensureGatewayRunning true false 1000 initialState).state.crashHistory) :=
  C5_readiness_timeout 1000 initialState rfl rfl (by decide)

/-- The outbound proxy headers always keep `x-forwarded-port` and the
`x-forwarded-by` marker: `proxyToGateway` deletes neither. -/
theorem proxyOutbound_keeps_port_by (req : List (String × String)) (url : UrlParts)
    (ri : Option String) (method token target : String) :
    hHas (proxyOutboundHeaders req url ri method token target) "x-forwarded-port" = true ∧
    hHas (proxyOutboundHeaders req url ri method token target) "x-forwarded-by" = true := by
  have hport := buildProxyHeaders_hHas_port req url ri
  have hby := buildProxyHeaders_hHas_by req url ri
  constructor <;>
  · simp only [proxyOutboundHeaders]
    repeat' split
    all_goals simp [hHas_hDelete, hHas_hSet, hport, hby]

/-- C6 counterexample: for a concrete GET request the outbound proxy header
set still contains `x-forwarded-port` (and the `x-forwarded-by` marker), so
it is not true that no header matching `X-Forwarded-*` reaches the backend:
only `x-forwarded-for`/`-proto`/`-host` are stripped. -/
theorem C6_counterexample :
    hHas (proxyOutboundHeaders [("host", "example.com")]
        ⟨"https:", "example.com", ""⟩ (some "203.0.113.7")
        "GET" "tok" "http://127.0.0.1:18789") "x-forwarded-port" = true ∧
    hHas (proxyOutboundHeaders [("host", "example.com")]
        ⟨"https:", "example.com", ""⟩ (some "203.0.113.7")
        "GET" "tok" "http://127.0.0.1:18789") "x-forwarded-by" = true :=
  proxyOutbound_keeps_port_by [("host", "example.com")]
    ⟨"https:", "example.com", ""⟩ (some "203.0.113.7") "GET" "tok" "http://127.0.0.1:18789"

/-- C6 (amended): the outbound headers sent downstream by the HTTP proxy
contain none of `x-forwarded-for`, `x-forwarded-proto`, `x-forwarded-host`
(the three headers `proxyToGateway` deletes), but they always contain
`x-forwarded-port` and the `x-forwarded-by` marker, which are set by
`buildProxyHeaders` and never stripped. -/
theorem C6_forwarded_header_strip (req : List (String × String)) (url : UrlParts)
    (ri : Option String) (method token target : String) :
    hHas (proxyOutboundHeaders req url ri method token target) "x-forwarded-for" = false ∧
    hHas (proxyOutboundHeaders req url ri method token target) "x-forwarded-proto" = false ∧
    hHas (proxyOutboundHeaders req url ri method token target) "x-forwarded-host" = false ∧
    hHas (proxyOutboundHeaders req url ri method token target) "x-forwarded-port" = true ∧
    hHas (proxyOutboundHeaders req url ri method token target) "x-forwarded-by" = true := by
  refine ⟨?_, ?_, ?_, (proxyOutbound_keeps_port_by req url ri method token target).1,
    (proxyOutbound_keeps_port_by req url ri method token target).2⟩ <;>
  · simp only [proxyOutboundHeaders]
    repeat' split
    all_goals simp [hHas_hDelete, hHas_hSet]

/-- C7 counterexample: a WebSocket handshake carrying an `Authorization`
header with an empty value has that header replaced by the injected bearer
token (the JS truthiness check `!headers["authorization"]` treats `""` as
absent), so it is not true that a present `Authorization` header is always
forwarded unchanged with no token injected. -/
theorem C7_counterexample :
    recGet [("authorization", "")] "authorization" = some "" ∧
    recGet (wsOutboundHeaders [("authorization", "")] "tok" "http://127.0.0.1:18789")
      "authorization" = some ("Bearer " ++ "tok") := by
  constructor
  · rfl
  · rw [wsOutbound_auth]
    rfl

/-- C7 (amended): on the HTTP proxy path, a request without an
`Authorization` header gets `Authorization: Bearer <token>` injected and a
request with one (any value, empty included) has it forwarded unchanged; on
the WebSocket path the same holds except that an `Authorization` header with
an empty value is replaced by the injected bearer token. -/
theorem C7_auth_injection (req raw : List (String × String)) (url : UrlParts)
    (ri : Option String) (method token target : String) :
    (hGet (headersOf req) "authorization" = none →
      hGet (proxyOutboundHeaders req url ri method token target) "authorization" =
        some ("Bearer " ++ token)) ∧
    (∀ v, hGet (headersOf req) "authorization" = some v →
      hGet (proxyOutboundHeaders req url ri method token target) "authorization" =
        some v) ∧
    (recGet raw "authorization" = none →
      recGet (wsOutboundHeaders raw token target) "authorization" =
        some ("Bearer " ++ token)) ∧
    (∀ v, recGet raw "authorization" = some v → v ≠ "" →
      recGet (wsOutboundHeaders raw token target) "authorization" = some v) ∧
    (recGet raw "authorization" = some "" →
      recGet (wsOutboundHeaders raw token target) "authorization" =
        some ("Bearer " ++ token)) := by
  refine ⟨?_, ?_, ?_, ?_, ?_⟩
  · intro hnone
    rw [proxyOutbound_auth, hnone]
  · intro v hsome
    rw [proxyOutbound_auth, hsome]
  · intro hnone
    rw [wsOutbound_auth, hnone]
  · intro v hsome hv
    rw [wsOutbound_auth, hsome]
    simp [hv]
  · intro hempty
    rw [wsOutbound_auth, hempty]
    rfl

/-- C7 amended-claim witness: a request with no `Authorization` header gets
the bearer token on the HTTP path, and a WebSocket handshake with a nonempty
`Authorization` header keeps it unchanged. -/
theorem C7_witness :
    hGet (proxyOutboundHeaders [] ⟨"https:", "example.com", ""⟩ none
      "GET" "tok" "http://127.0.0.1:18789") "authorization" = some ("Bearer " ++ "tok") ∧
    recGet (wsOutboundHeaders [("authorization", "Bearer abc")] "tok"
      "http://127.0.0.1:18789") "authorization" = some "Bearer abc" :=
  ⟨(C7_auth_injection [] [("authorization", "Bearer abc")]
      ⟨"https:", "example.com", ""⟩ none "GET" "tok" "http://127.0.0.1:18789").1 rfl,
   (C7_auth_injection [] [("authorization", "Bearer abc")]
      ⟨"https:", "example.com", ""⟩ none "GET" "tok" "http://127.0.0.1:18789").2.2.2.1
      "Bearer abc" rfl (by decide)⟩

/-- C8: `runCmd`'s exit-code mapping: 124 with the synthetic timeout marker in
the output when the timeout kill fired; 127 when the process could not be
spawned; the process's own exit code when the `close` event carries one (and
no timeout kill fired); 1 when terminated by a signal with no explicit exit
code.  (`runCmd` is a total function: the promise always resolves.) -/
theorem C8_runCmd_exit_codes (timeoutMs : Nat) (pre post err sig : String)
    (c : Int) (oc : Option Int) (os : Option String) :
    ((runCmd timeoutMs true pre post (.closed oc os)).code = 124 ∧
      ∃ a b, (runCmd timeoutMs true pre post (.closed oc os)).output =
        a ++ timeoutMarker timeoutMs ++ b) ∧
    (runCmd timeoutMs false pre post (.spawnError err)).code = 127 ∧
    (runCmd timeoutMs true pre post (.spawnError err)).code = 127 ∧
    (runCmd timeoutMs false pre post (.closed (some c) os)).code = c ∧
    (runCmd timeoutMs false pre post (.closed none (some sig))).code = 1 := by
  refine ⟨⟨rfl, pre, post, rfl⟩, rfl, rfl, rfl, rfl⟩

end OpenClaw
